import Mathlib

/-!
Verification of the prime-gaps utility scripts.

Shallow embedding of the two scripts of the repository:

* `src/strip_prime_cache.py` (CacheStripper): reads a JSON file, deletes the
  top-level key `PrecomputedPrimes`, writes the result to an output file.
* `src/plot.py` (GapPlotter): reads a JSON report, truncates the
  `GapCounter` histogram at its last nonzero entry, drops index 0, takes
  elementwise natural logs and writes a scatter-plot image.

Modelling choices:

* JSON documents are modelled by the inductive type `Json`; a Python dict
  (a JSON object as produced by `json.load`) is an association list of
  key/value pairs.  The file system is a map from path to the parsed JSON
  document stored there (`json.load` / `json.dump` are the standard
  library's inverse pair between documents and their serializations, so
  reading or re-parsing a file yields its document directly); a path with
  no readable JSON file maps to `none`.
* `strip_precomputed_primes` is a state transformer on the file system
  returning the Python function's outcome (normal return or the raised
  exception class) together with the file system after the call; on an
  exception the script aborts before any write, so the file system is
  returned unchanged.
* The plotting pipeline of `plot.py`'s `main` is pure up to the final
  `savefig`; `plotMain` returns either the `ValueError`-class failure that
  `np.max` raises on an empty array (the spec's `DataError`) or the exact
  scatter data and file name that are rendered and saved.  An `Except.ok`
  result means the scatter is rendered and the image file is written; an
  `Except.error` result means the script aborted before `savefig`, so no
  image is produced.
* `np.log` on the nonnegative integer counts is exact: `log(0)` is minus
  infinity (with `divide` warnings ignored) and `log(c)` for `c > 0` is the
  real number ln c.  `LogVal` represents these values symbolically:
  `LogVal.negInf` is minus infinity and `LogVal.lnPos c` denotes ln c; the
  representation is faithful since ln is injective on the positive integers.
-/

/-- A JSON value; `obj` carries the key/value pairs of a mapping in order,
as `json.load` produces them. -/
inductive Json where
  | null
  | bool (b : Bool)
  | num (n : Int)
  | str (s : String)
  | arr (elems : List Json)
  | obj (kvs : List (String × Json))

/-- The file system: each path holds the parsed JSON document of the file
stored there, or `none` when there is no readable JSON file at that path. -/
abbrev FS := String → Option Json

/-- Writing a document to a path (Python `open(path, "w")` plus
`json.dump`), overwriting whatever was there. -/
def FS.update (fs : FS) (path : String) (v : Json) : FS :=
  fun p => if p = path then some v else fs p

/-- Exception classes `strip_precomputed_primes` can raise: `ioError` when
`open(infile)` or `json.load` fails, `typeError` when `del val[...]` is
applied to a non-mapping, `keyError` when the key is absent. -/
inductive StripErr where
  | ioError
  | typeError
  | keyError
deriving DecidableEq, Repr

/-- Embedding of `strip_precomputed_primes(infile, outfile)` from
`src/strip_prime_cache.py` (lines 22-29): load the input file, execute
`del val['PrecomputedPrimes']` (a KeyError when the key is absent, a
TypeError when the loaded value is not a mapping), then dump the result to
the output file.  Returns the outcome together with the file system after
the call; every exception aborts the function before the output file is
opened, so on an error the file system is unchanged. -/
def strip_precomputed_primes (fs : FS) (infile outfile : String) :
    Except StripErr Unit × FS :=
  match fs infile with
  | none => (Except.error StripErr.ioError, fs)
  | some (Json.obj kvs) =>
    if kvs.any (fun p => p.1 == "PrecomputedPrimes") then
      (Except.ok (),
        FS.update fs outfile
          (Json.obj (kvs.filter (fun p => p.1 != "PrecomputedPrimes"))))
    else
      (Except.error StripErr.keyError, fs)
  | some _ => (Except.error StripErr.typeError, fs)

/-- The value of one entry of `np.log(ys)` where `ys` holds nonnegative
integers: `negInf` is minus infinity (the value of `log(0)`), `lnPos c`
denotes the real number ln c for a positive integer `c`. -/
inductive LogVal where
  | negInf
  | lnPos (c : Nat)
deriving DecidableEq, Repr

/-- One entry of `np.log` applied to a nonnegative integer count, with the
`divide` warning ignored as in the source. -/
def npLog (c : Nat) : LogVal :=
  if c = 0 then LogVal.negInf else LogVal.lnPos c

/-- The two fields of `info.json` that `plot.py` reads. -/
structure Info where
  primesSoFar : Int
  gapCounter : List Nat
deriving DecidableEq, Repr

/-- The data rendered and saved by the tail of `plot.py`'s `main`: the
scatter points (gap size, log count) passed to `ax.scatter`, the title, and
the name of the image file written by `plt.savefig`. -/
structure PlotResult where
  points : List (Nat × LogVal)
  title : String
  filename : String
deriving DecidableEq, Repr

/-- The failure `plot.py` can raise after parsing: `np.max` of an empty
array (no nonzero entry in `GapCounter`) raises a `ValueError`, the spec's
`DataError`. -/
inductive DataError where
  | noNonzero
deriving DecidableEq, Repr

/-- `np.nonzero(ys)`: the indices of the nonzero entries of `ys`, in
increasing order. -/
def nonzeroIndices (ys : List Nat) : List Nat :=
  (List.range ys.length).filter (fun i => ys.getD i 0 != 0)

/-- Embedding of `main` from `src/plot.py` (lines 7-32), after `json.load`:
`last_nonzero_y = np.max(np.nonzero(ys))` (raising on an all-zero array),
`ys = ys[:last_nonzero_y + 1]`, `xs = np.arange(len(ys)) * 2`, drop index 0
from both, `ys = np.log(ys)`, then scatter and save
`plot_{num_primes}.png`. -/
def plotMain (info : Info) : Except DataError PlotResult :=
  let ys := info.gapCounter
  match (nonzeroIndices ys).max? with
  | none => Except.error DataError.noNonzero
  | some m =>
    let ys1 := ys.take (m + 1)
    let xs := (List.range ys1.length).map (fun i => i * 2)
    let ys2 := ys1.drop 1
    let xs2 := xs.drop 1
    let ysLog := ys2.map npLog
    Except.ok
      { points := xs2.zip ysLog
        title := "Log Prime Gaps (First " ++ toString info.primesSoFar ++ " Primes)"
        filename := "plot_" ++ toString info.primesSoFar ++ ".png" }

/-- A full report holding `PrecomputedPrimes`, for concrete instantiations. -/
def kvsFull : List (String × Json) :=
  [("PrimesSoFar", Json.num 1), ("GapCounter", Json.arr [Json.num 0]),
   ("PrecomputedPrimes", Json.arr [Json.num 2, Json.num 3, Json.num 5])]

/-- A file system holding the full report at `in.json`. -/
def fsFull : FS := fun p =>
  if p = "in.json" then some (Json.obj kvsFull) else none

/-- A report lacking `PrecomputedPrimes`, for concrete instantiations. -/
def kvsNoCache : List (String × Json) :=
  [("PrimesSoFar", Json.num 1), ("GapCounter", Json.arr [Json.num 0])]

/-- A file system holding the stripped report at `in.json`. -/
def fsNoCache : FS := fun p =>
  if p = "in.json" then some (Json.obj kvsNoCache) else none

/-- A file system holding a full report at `info.json`, used to invoke the
stripper with the same path as input and output. -/
def fsSame : FS := fun p =>
  if p = "info.json" then
    some (Json.obj
      [("PrecomputedPrimes", Json.arr [Json.num 2, Json.num 3, Json.num 5]),
       ("PrimesSoFar", Json.num 10)])
  else none

/-- The input of the spec's Scenario A. -/
def scenarioA : Info := { primesSoFar := 100, gapCounter := [5, 0, 3, 0, 0] }

/-- The plot produced from Scenario A. -/
def scenarioAResult : PlotResult :=
  { points := [(2, LogVal.negInf), (4, LogVal.lnPos 3)]
    title := "Log Prime Gaps (First 100 Primes)"
    filename := "plot_100.png" }

/-- A report whose only nonzero gap count sits at index 0. -/
def onlyIndexZero : Info := { primesSoFar := 100, gapCounter := [5, 0, 0] }

lemma mem_nonzeroIndices {ys : List Nat} {i : Nat} :
    i ∈ nonzeroIndices ys ↔ i < ys.length ∧ ys.getD i 0 ≠ 0 := by
  simp [nonzeroIndices, List.mem_filter, List.mem_range]

lemma getD_eq_zero_of_all_zero {ys : List Nat} (h : ∀ c ∈ ys, c = 0) (i : Nat) :
    ys.getD i 0 = 0 := by
  induction ys generalizing i with
  | nil => simp [List.getD]
  | cons a t ih =>
    cases i with
    | zero => simpa using h a (List.mem_cons_self a t)
    | succ n =>
      exact ih (fun c hc => h c (List.mem_cons_of_mem a hc)) n

lemma nonzeroIndices_eq_nil {ys : List Nat} (h : ∀ c ∈ ys, c = 0) :
    nonzeroIndices ys = [] := by
  simp only [nonzeroIndices, List.filter_eq_nil_iff]
  intro i _
  rw [getD_eq_zero_of_all_zero h i]
  simp

lemma take_drop_eq_map_range {ys : List Nat} {m : Nat} (hm : m < ys.length) :
    (ys.take (m + 1)).drop 1 =
      (List.range m).map (fun j => ys.getD (j + 1) 0) := by
  apply List.ext_getElem
  · simp
    omega
  · intro j h1 h2
    have hj : j < m := by simpa using h2
    have hjy : j + 1 < ys.length := by omega
    simp only [List.getElem_drop, List.getElem_take, List.getElem_map,
      List.getElem_range]
    rw [List.getD_eq_getElem?_getD, List.getElem?_eq_getElem hjy]
    simp [Nat.add_comm 1 j]

lemma plotMain_eq_ok {info : Info} {m : Nat}
    (hm : (nonzeroIndices info.gapCounter).max? = some m) :
    plotMain info = Except.ok
      { points := (List.range m).map
          (fun j => ((j + 1) * 2, npLog (info.gapCounter.getD (j + 1) 0)))
        title := "Log Prime Gaps (First " ++ toString info.primesSoFar ++ " Primes)"
        filename := "plot_" ++ toString info.primesSoFar ++ ".png" } := by
  have hmem : m ∈ nonzeroIndices info.gapCounter :=
    (List.max?_eq_some_iff'.mp hm).1
  have hmlt : m < info.gapCounter.length := (mem_nonzeroIndices.mp hmem).1
  simp only [plotMain, hm]
  congr 1
  have hlen : (info.gapCounter.take (m + 1)).length = m + 1 := by
    simp
    omega
  rw [hlen, List.range_succ_eq_map, take_drop_eq_map_range hmlt]
  simp only [List.map_cons, List.drop_succ_cons, List.drop_zero, List.map_map,
    List.zip_map']
  rfl

lemma getD_ne_zero_lt_length {ys : List Nat} {m : Nat} (hmz : ys.getD m 0 ≠ 0) :
    m < ys.length := by
  by_contra hle
  apply hmz
  rw [List.getD_eq_getElem?_getD, List.getElem?_eq_none (by omega)]
  rfl

lemma max?_nonzeroIndices_eq {ys : List Nat} {m : Nat}
    (hmz : ys.getD m 0 ≠ 0) (htz : ∀ i, m < i → ys.getD i 0 = 0) :
    (nonzeroIndices ys).max? = some m := by
  rw [List.max?_eq_some_iff']
  refine ⟨mem_nonzeroIndices.mpr ⟨getD_ne_zero_lt_length hmz, hmz⟩, ?_⟩
  intro b hb
  by_contra hbm
  exact (mem_nonzeroIndices.mp hb).2 (htz b (by omega))

lemma scenarioA_trailing_zero :
    ∀ i, 2 < i → scenarioA.gapCounter.getD i 0 = 0 := by
  intro i hi
  rcases Nat.lt_or_ge i 5 with h5 | h5
  · interval_cases i <;> rfl
  · rw [List.getD_eq_getElem?_getD,
      List.getElem?_eq_none (by simpa [scenarioA] using h5)]
    rfl

lemma onlyIndexZero_tail_zero :
    ∀ i, 0 < i → onlyIndexZero.gapCounter.getD i 0 = 0 := by
  intro i hi
  rcases Nat.lt_or_ge i 3 with h3 | h3
  · interval_cases i <;> rfl
  · rw [List.getD_eq_getElem?_getD,
      List.getElem?_eq_none (by simpa [onlyIndexZero] using h3)]
    rfl

/-- Claim C1: for every JSON input that is a top-level mapping containing
the key `PrecomputedPrimes`, running CacheStripper succeeds, and the
document at the output path (what re-parsing the output file yields) is the
input mapping with the key `PrecomputedPrimes` removed and every other key
and value unchanged. -/
theorem strip_roundtrip (fs : FS) (infile outfile : String)
    (kvs : List (String × Json))
    (hin : fs infile = some (Json.obj kvs))
    (hmem : "PrecomputedPrimes" ∈ kvs.map Prod.fst) :
    (strip_precomputed_primes fs infile outfile).1 = Except.ok () ∧
      (strip_precomputed_primes fs infile outfile).2 outfile =
        some (Json.obj (kvs.filter (fun p => p.1 != "PrecomputedPrimes"))) ∧
      ∀ k v, ((k, v) ∈ kvs.filter (fun p => p.1 != "PrecomputedPrimes") ↔
        ((k, v) ∈ kvs ∧ k ≠ "PrecomputedPrimes")) := by
  have hany : kvs.any (fun p => p.1 == "PrecomputedPrimes") = true := by
    rw [List.any_eq_true]
    simp only [List.mem_map] at hmem
    obtain ⟨p, hp, hfst⟩ := hmem
    exact ⟨p, hp, by simp [hfst]⟩
  refine ⟨?_, ?_, ?_⟩
  · simp [strip_precomputed_primes, hin, hany]
  · simp [strip_precomputed_primes, hin, hany, FS.update]
  · intro k v
    simp [List.mem_filter]

/-- Claim C1, witness: a concrete invocation satisfying the hypotheses. -/
theorem strip_roundtrip_witness :
    ("PrecomputedPrimes" ∈ kvsFull.map Prod.fst) ∧
      ((strip_precomputed_primes fsFull "in.json" "out.json").1 =
          Except.ok () ∧
        (strip_precomputed_primes fsFull "in.json" "out.json").2 "out.json" =
          some (Json.obj
            (kvsFull.filter (fun p => p.1 != "PrecomputedPrimes"))) ∧
        ∀ k v, ((k, v) ∈ kvsFull.filter (fun p => p.1 != "PrecomputedPrimes") ↔
          ((k, v) ∈ kvsFull ∧ k ≠ "PrecomputedPrimes"))) :=
  ⟨by decide, strip_roundtrip fsFull "in.json" "out.json" kvsFull rfl (by decide)⟩

/-- Claim C2: for every JSON input that is a top-level mapping not
containing the key `PrecomputedPrimes`, CacheStripper fails with the
KeyError-class condition and the file system is unchanged, so no output
file is written to the output path. -/
theorem strip_missing_key (fs : FS) (infile outfile : String)
    (kvs : List (String × Json))
    (hin : fs infile = some (Json.obj kvs))
    (hnot : "PrecomputedPrimes" ∉ kvs.map Prod.fst) :
    (strip_precomputed_primes fs infile outfile).1 =
        Except.error StripErr.keyError ∧
      (strip_precomputed_primes fs infile outfile).2 = fs := by
  have hany : kvs.any (fun p => p.1 == "PrecomputedPrimes") = false := by
    rw [Bool.eq_false_iff]
    intro hcon
    rw [List.any_eq_true] at hcon
    obtain ⟨p, hp, heq⟩ := hcon
    exact hnot (List.mem_map.mpr ⟨p, hp, by simpa using heq.symm⟩)
  constructor <;> simp [strip_precomputed_primes, hin, hany]

/-- Claim C2, witness: a concrete invocation satisfying the hypotheses. -/
theorem strip_missing_key_witness :
    ("PrecomputedPrimes" ∉ kvsNoCache.map Prod.fst) ∧
      ((strip_precomputed_primes fsNoCache "in.json" "out.json").1 =
          Except.error StripErr.keyError ∧
        (strip_precomputed_primes fsNoCache "in.json" "out.json").2 =
          fsNoCache) :=
  ⟨by decide,
    strip_missing_key fsNoCache "in.json" "out.json" kvsNoCache rfl (by decide)⟩

/-- Claim C3: on input with `PrimesSoFar` 100 and `GapCounter`
`[5, 0, 3, 0, 0]`, GapPlotter plots exactly the pairs with gap sizes 2 and
4 and log counts ln 0 (minus infinity) and ln 3: the points
`(2, -inf)` and `(4, ln 3)`. -/
theorem plot_scenario_a :
    plotMain { primesSoFar := 100, gapCounter := [5, 0, 3, 0, 0] } =
      Except.ok
        { points := [(2, LogVal.negInf), (4, LogVal.lnPos 3)]
          title := "Log Prime Gaps (First 100 Primes)"
          filename := "plot_100.png" } := by
  rfl

/-- Claim C4: for every input whose `GapCounter` sequence contains no
nonzero value, GapPlotter fails with the DataError and produces no output
image (the script aborts before `savefig`). -/
theorem plot_all_zero_data_error (info : Info)
    (h : ∀ c ∈ info.gapCounter, c = 0) :
    plotMain info = Except.error DataError.noNonzero := by
  simp [plotMain, nonzeroIndices_eq_nil h]

/-- Claim C4, witness: the spec's Scenario B input. -/
theorem plot_all_zero_data_error_witness :
    (∀ c ∈ ([0, 0, 0] : List Nat), c = 0) ∧
      plotMain { primesSoFar := 50, gapCounter := [0, 0, 0] } =
        Except.error DataError.noNonzero :=
  ⟨by decide,
    plot_all_zero_data_error { primesSoFar := 50, gapCounter := [0, 0, 0] }
      (by decide)⟩

/-- Claim C5: for every `GapCounter` sequence whose highest nonzero index
is `m`, every plotted point has gap size at most `2 * m`; entries at an
index strictly greater than `m` (the trailing zeros) are never plotted. -/
theorem plot_trailing_zeros_not_plotted (info : Info) (m : Nat)
    (r : PlotResult)
    (hmz : info.gapCounter.getD m 0 ≠ 0)
    (htz : ∀ i, m < i → info.gapCounter.getD i 0 = 0)
    (hok : plotMain info = Except.ok r) :
    ∀ p ∈ r.points, p.1 ≤ 2 * m := by
  rw [plotMain_eq_ok (max?_nonzeroIndices_eq hmz htz)] at hok
  cases hok
  intro p hp
  simp only [List.mem_map, List.mem_range] at hp
  obtain ⟨j, hj, rfl⟩ := hp
  omega

/-- Claim C5, witness: Scenario A, whose highest nonzero index is 2. -/
theorem plot_trailing_zeros_not_plotted_witness :
    (scenarioA.gapCounter.getD 2 0 ≠ 0) ∧
      plotMain scenarioA = Except.ok scenarioAResult ∧
      ∀ p ∈ scenarioAResult.points, p.1 ≤ 2 * 2 :=
  ⟨by decide, rfl,
    plot_trailing_zeros_not_plotted scenarioA 2 scenarioAResult (by decide)
      scenarioA_trailing_zero rfl⟩

/-- Claim C6: whenever GapPlotter succeeds, the `j`-th plotted point is
exactly the pair of twice the original index `j + 1` its count occupied in
`GapCounter` and the log of that count. -/
theorem plot_gap_doubling (info : Info) (r : PlotResult)
    (hok : plotMain info = Except.ok r) (j : Nat) (hj : j < r.points.length) :
    r.points.getD j (0, LogVal.negInf) =
      ((j + 1) * 2, npLog (info.gapCounter.getD (j + 1) 0)) := by
  cases hmx : (nonzeroIndices info.gapCounter).max? with
  | none => simp [plotMain, hmx] at hok
  | some m =>
    rw [plotMain_eq_ok hmx] at hok
    cases hok
    simp only [List.length_map, List.length_range] at hj
    rw [List.getD_eq_getElem?_getD, List.getElem?_eq_getElem (by simpa using hj)]
    simp

/-- Claim C6, witness: Scenario A, second plotted point. -/
theorem plot_gap_doubling_witness :
    plotMain scenarioA = Except.ok scenarioAResult ∧
      scenarioAResult.points.getD 1 (0, LogVal.negInf) =
        ((1 + 1) * 2, npLog (scenarioA.gapCounter.getD 2 0)) :=
  ⟨rfl, plot_gap_doubling scenarioA scenarioAResult rfl 1 (by decide)⟩

/-- Claim C7: for every `GapCounter` sequence, the pair derived from index
0 (gap size 0) never appears among the plotted pairs: every plotted point
has a nonzero gap size. -/
theorem plot_index_zero_dropped (info : Info) (r : PlotResult)
    (hok : plotMain info = Except.ok r) :
    ∀ p ∈ r.points, p.1 ≠ 0 := by
  cases hmx : (nonzeroIndices info.gapCounter).max? with
  | none => simp [plotMain, hmx] at hok
  | some m =>
    rw [plotMain_eq_ok hmx] at hok
    cases hok
    intro p hp
    simp only [List.mem_map, List.mem_range] at hp
    obtain ⟨j, hj, rfl⟩ := hp
    omega

/-- Claim C7, witness: Scenario A. -/
theorem plot_index_zero_dropped_witness :
    plotMain scenarioA = Except.ok scenarioAResult ∧
      ∀ p ∈ scenarioAResult.points, p.1 ≠ 0 :=
  ⟨rfl, plot_index_zero_dropped scenarioA scenarioAResult rfl⟩

/-- Claim C8, counterexample: invoking the stripper with the same path as
input and output rewrites the input file, so the input file's content is
not unchanged for every choice of paths. -/
theorem strip_modifies_input_when_paths_equal :
    (strip_precomputed_primes fsSame "info.json" "info.json").2 "info.json" ≠
      fsSame "info.json" := by
  intro h
  simp [strip_precomputed_primes, fsSame, FS.update] at h

/-- Claim C8, amended: for every invocation of CacheStripper whose output
path differs from the input path, the content of the input file is
unchanged after the operation. -/
theorem strip_preserves_input_of_ne (fs : FS) (infile outfile : String)
    (hne : infile ≠ outfile) :
    (strip_precomputed_primes fs infile outfile).2 infile = fs infile := by
  cases hfs : fs infile with
  | none => simp [strip_precomputed_primes, hfs]
  | some v =>
    cases v with
    | obj kvs =>
      by_cases hany : kvs.any (fun p => p.1 == "PrecomputedPrimes") = true
      · simp [strip_precomputed_primes, hfs, hany, FS.update, hne]
      · simp [strip_precomputed_primes, hfs, hany]
    | null => simp [strip_precomputed_primes, hfs]
    | bool b => simp [strip_precomputed_primes, hfs]
    | num n => simp [strip_precomputed_primes, hfs]
    | str s => simp [strip_precomputed_primes, hfs]
    | arr elems => simp [strip_precomputed_primes, hfs]

/-- Claim C8, witness for the amended statement: distinct input and output
paths. -/
theorem strip_preserves_input_witness :
    ("in.json" ≠ "out.json") ∧
      (strip_precomputed_primes fsFull "in.json" "out.json").2 "in.json" =
        fsFull "in.json" :=
  ⟨by decide, strip_preserves_input_of_ne fsFull "in.json" "out.json" (by decide)⟩

/-- Claim C9: whenever the truncation step succeeds, the log transform
raises no error: GapPlotter proceeds to render and save the plot, and every
retained count equal to 0 is transformed to minus infinity. -/
theorem plot_log_of_zero_negInf (info : Info) (m : Nat)
    (hm : (nonzeroIndices info.gapCounter).max? = some m) :
    ∃ r, plotMain info = Except.ok r ∧
      ∀ j, j < r.points.length → info.gapCounter.getD (j + 1) 0 = 0 →
        (r.points.getD j (0, LogVal.negInf)).2 = LogVal.negInf := by
  refine ⟨_, plotMain_eq_ok hm, ?_⟩
  intro j hj hz
  simp only [List.length_map, List.length_range] at hj
  rw [List.getD_eq_getElem?_getD, List.getElem?_eq_getElem (by simpa using hj)]
  rw [List.getD_eq_getElem?_getD] at hz
  simp [hz, npLog]

/-- Claim C9, witness: Scenario A, whose retained count at index 1 is 0. -/
theorem plot_log_of_zero_negInf_witness :
    ((nonzeroIndices scenarioA.gapCounter).max? = some 2) ∧
      ∃ r, plotMain scenarioA = Except.ok r ∧
        ∀ j, j < r.points.length → scenarioA.gapCounter.getD (j + 1) 0 = 0 →
          (r.points.getD j (0, LogVal.negInf)).2 = LogVal.negInf :=
  ⟨rfl, plot_log_of_zero_negInf scenarioA 2 rfl⟩

/-- Claim C10: for every `GapCounter` sequence whose only nonzero entry is
at index 0, GapPlotter does not fail: truncation keeps only index 0, the
index-0 drop leaves zero points, and the image file is still written with
an empty scatter. -/
theorem plot_only_index_zero (info : Info)
    (h0 : info.gapCounter.getD 0 0 ≠ 0)
    (hz : ∀ i, 0 < i → info.gapCounter.getD i 0 = 0) :
    plotMain info = Except.ok
      { points := []
        title := "Log Prime Gaps (First " ++ toString info.primesSoFar ++ " Primes)"
        filename := "plot_" ++ toString info.primesSoFar ++ ".png" } := by
  rw [plotMain_eq_ok (max?_nonzeroIndices_eq h0 hz)]
  simp

/-- Claim C10, witness: the sequence `[5, 0, 0]`. -/
theorem plot_only_index_zero_witness :
    (onlyIndexZero.gapCounter.getD 0 0 ≠ 0) ∧
      plotMain onlyIndexZero = Except.ok
        { points := []
          title := "Log Prime Gaps (First " ++
            toString onlyIndexZero.primesSoFar ++ " Primes)"
          filename := "plot_" ++ toString onlyIndexZero.primesSoFar ++ ".png" } :=
  ⟨by decide, plot_only_index_zero onlyIndexZero (by decide) onlyIndexZero_tail_zero⟩
